import Mathlib

/-!
Verification development for the PawPal veterinary-clinic backend.

Each Express handler that the properties below concern is translated into a
pure Lean function over an explicit database state.  MongoDB collections
become lists of structures; findById / findOne become List.find? with the
same predicates; findByIdAndUpdate becomes a List.map that rewrites the
matching document; HTTP responses become a numeric status plus the updated
state (and, where a property is about the response body, an association
list of field names to values, so that field deletion is observable).

The source repository contains, for several controllers and for the auth
middleware, two versions of the same function (the file holds both, one
after the other).  Where the versions differ in behaviour both are embedded,
with the second version suffixed _v2 or _vB, and the theorems name which
version they speak about.

Elided faithfully-irrelevant details: Mongoose populate calls (they only
join display fields), console logging, and the sort(...) clauses on list
endpoints (a sort permutes the returned list and every property proved
about a listing here is a membership property, which is invariant under
permutation).  Object ids are modelled as Nat; the id of a freshly
inserted document is passed as an explicit argument.  Date values are
modelled as Nat timestamps; bcrypt hashes are uninterpreted strings passed in.
-/

namespace PawPal

/-- Document of the PetOwner collection (models/PetOwner.js), reduced to the
fields the handlers under proof read or write. -/
structure POwner where
  oid : Nat
  firstName : String
  lastName : String
  address : String
  phoneNumber : String
  email : String
  passwordHash : String
  deriving DecidableEq

/-- Document of the Veterinarian collection, reduced to the fields the
handlers under proof read or write.  vstatus is the status field
(Active / Deactivated / Deleted); clinicId and currentActiveClinicId are the
two clinic references the two controller generations use. -/
structure Vet where
  vid : Nat
  firstName : String
  lastName : String
  email : String
  passwordHash : String
  veterinaryId : String
  accessLevel : String
  vstatus : String
  clinicId : Option Nat
  currentActiveClinicId : Option Nat
  ownedClinics : List Nat
  deriving DecidableEq

/-- Document of the ClinicStaff collection (non-veterinarian staff). -/
structure Staff where
  sid : Nat
  clinicId : Nat
  firstName : String
  lastName : String
  email : String
  passwordHash : String
  srole : String
  accessLevel : String
  deriving DecidableEq

/-- Document of the Clinic collection. -/
structure Clinic where
  cid : Nat
  cname : String
  caddress : String
  cphone : String
  primaryVetId : Option Nat
  deriving DecidableEq

/-- Document of the PetProfile collection, reduced to the fields the
handlers under proof read or write. -/
structure Pet where
  pid : Nat
  ownerId : Nat
  registeredClinicId : Option Nat
  registrationStatus : String
  isDeleted : Bool
  deriving DecidableEq

/-- Document of the Appointment collection (models/Appointment.js). -/
structure Appt where
  aid : Nat
  petId : Nat
  ownerId : Nat
  clinicId : Nat
  vetId : Nat
  dateTime : Nat
  astatus : String
  deriving DecidableEq

/-- Document of the MedicalRecord collection. -/
structure MRecord where
  rid : Nat
  petId : Nat
  vetId : Nat
  visibleToOwner : Bool
  isDeleted : Bool
  deriving DecidableEq

/-- Document of the Prescription collection (second schema version, which
carries the soft-delete flag; in the first schema version the flag is simply
absent from every document, i.e. false). -/
structure Rx where
  xid : Nat
  petId : Nat
  rxType : String
  dueDate : Option Nat
  isDeleted : Bool
  deriving DecidableEq

/-- The shared database: one list per collection. -/
structure DB where
  owners : List POwner
  vets : List Vet
  staff : List Staff
  clinics : List Clinic
  pets : List Pet
  appts : List Appt
  records : List MRecord
  rxs : List Rx
  deriving DecidableEq

/-- The principal the auth middleware attaches as req.user. -/
structure Principal where
  uid : Nat
  pemail : String
  role : String
  accessLevel : Option String
  clinicId : Option Nat
  deriving DecidableEq

/-- A decoded JWT payload (jwt.verify succeeded).  A request whose token is
missing or fails verification is modelled by passing none for the whole
token. -/
structure Token where
  tid : Option Nat
  trole : Option String
  deriving DecidableEq

def findOwner (db : DB) (i : Nat) : Option POwner :=
  db.owners.find? (fun o => o.oid == i)

def findVet (db : DB) (i : Nat) : Option Vet :=
  db.vets.find? (fun v => v.vid == i)

def findPet (db : DB) (i : Nat) : Option Pet :=
  db.pets.find? (fun p => p.pid == i)

def findClinic (db : DB) (i : Nat) : Option Clinic :=
  db.clinics.find? (fun c => c.cid == i)

def findAppt (db : DB) (i : Nat) : Option Appt :=
  db.appts.find? (fun a => a.aid == i)

def findRecord (db : DB) (i : Nat) : Option MRecord :=
  db.records.find? (fun r => r.rid == i)

/-! ### Auth middleware (middleware/auth.js, both versions in part_002) -/

/-- The role-discovery fallback of the first protect version: probe the
Veterinarian collection first, then the PetOwner collection, and adopt the
role of the first collection that matches. -/
def fallbackRole (db : DB) (uid : Nat) : Option String :=
  if (findVet db uid).isSome then some "vet"
  else if (findOwner db uid).isSome then some "owner"
  else none

/-- First protect version (part_002 lines 378-534): verify the token, trust
an embedded owner/vet role, otherwise fall back to the vet-then-owner probe;
reload the user by role; reject a veterinarian whose status is not Active;
attach id, email, role, accessLevel and the active clinic reference. -/
def protect (db : DB) (tok : Option Token) : Except Nat Principal :=
  match tok with
  | none => .error 401
  | some t =>
    match t.tid with
    | none => .error 401
    | some uid =>
      let roleOpt : Option String :=
        match t.trole with
        | some r =>
          if r == "owner" || r == "vet" then some r else fallbackRole db uid
        | none => fallbackRole db uid
      match roleOpt with
      | none => .error 401
      | some role =>
        if role == "owner" then
          match findOwner db uid with
          | none => .error 401
          | some o => .ok ⟨o.oid, o.email, "owner", none, none⟩
        else
          match findVet db uid with
          | none => .error 401
          | some v =>
            if v.vstatus != "Active" then .error 401
            else .ok ⟨v.vid, v.email, "vet", some v.accessLevel, v.currentActiveClinicId⟩

/-- Second protect version (part_002 lines 647-687): verify the token, then
look the id up in the PetOwner collection first and the Veterinarian
collection second, tagging the principal owner or vet accordingly.  This
version performs no status check on veterinarians and ignores any role
embedded in the token. -/
def protect_v2 (db : DB) (tok : Option Token) : Except Nat Principal :=
  match tok with
  | none => .error 401
  | some t =>
    match t.tid with
    | none => .error 401
    | some uid =>
      match findOwner db uid with
      | some o => .ok ⟨o.oid, o.email, "owner", none, none⟩
      | none =>
        match findVet db uid with
        | none => .error 401
        | some v => .ok ⟨v.vid, v.email, "vet", some v.accessLevel, v.clinicId⟩

/-- The authorize(...roles) middleware: the principal role must be in the
route-declared list. -/
def authorize (roles : List String) (u : Principal) : Bool :=
  roles.contains u.role

/-! ### Appointment booking and confirmation (appointmentController.js and
part_001; the two versions agree except that the part_001 bookAppointment
adds an owner-of-pet check before the clinic-registration check) -/

/-- Request body of POST /appointments/book.  A missing field is none. -/
structure BookReq where
  petId : Option Nat
  clinicId : Option Nat
  vetId : Option Nat
  dateTime : Option Nat
  deriving DecidableEq

/-- Result of a handler that may change the database: HTTP status plus the
resulting state. -/
structure HRes where
  hstatus : Nat
  db : DB
  deriving DecidableEq

/-- The slot-conflict point query: an existing appointment of the same vet
at the identical timestamp whose status is neither Canceled nor Completed. -/
def apptConflict (db : DB) (v t : Nat) : Option Appt :=
  db.appts.find? (fun a =>
    a.vetId == v && a.dateTime == t
      && !(a.astatus == "Canceled" || a.astatus == "Completed"))

/-- bookAppointment, first version (controllers/appointmentController.js
lines 6-76): validate required fields, fetch the pet, reject if the pet is
registered with a different clinic, reject on slot conflict, otherwise
insert a Booked appointment. -/
def bookAppointment (db : DB) (newId : Nat) (r : BookReq) : HRes :=
  match r.petId, r.clinicId, r.vetId, r.dateTime with
  | some petId, some clinicId, some vetId, some dt =>
    match findPet db petId with
    | none => ⟨404, db⟩
    | some pet =>
      if pet.registeredClinicId.isSome && pet.registeredClinicId != some clinicId then
        ⟨403, db⟩
      else
        match apptConflict db vetId dt with
        | some _ => ⟨409, db⟩
        | none =>
          let a : Appt := ⟨newId, petId, pet.ownerId, clinicId, vetId, dt, "Booked"⟩
          ⟨201, { db with appts := db.appts ++ [a] }⟩
  | _, _, _, _ => ⟨400, db⟩

/-- bookAppointment, second version (part_001 lines 6-83): identical except
that a requester with role owner who does not own the pet is rejected with
403 before the clinic-registration check. -/
def bookAppointment_vB (db : DB) (u : Principal) (newId : Nat) (r : BookReq) : HRes :=
  match r.petId, r.clinicId, r.vetId, r.dateTime with
  | some petId, some clinicId, some vetId, some dt =>
    match findPet db petId with
    | none => ⟨404, db⟩
    | some pet =>
      if u.role == "owner" && pet.ownerId != u.uid then ⟨403, db⟩
      else if pet.registeredClinicId.isSome && pet.registeredClinicId != some clinicId then
        ⟨403, db⟩
      else
        match apptConflict db vetId dt with
        | some _ => ⟨409, db⟩
        | none =>
          let a : Appt := ⟨newId, petId, pet.ownerId, clinicId, vetId, dt, "Booked"⟩
          ⟨201, { db with appts := db.appts ++ [a] }⟩
  | _, _, _, _ => ⟨400, db⟩

/-- confirmAppointment (identical in both controller versions): fetch the
appointment; reject only a vet who is not the assigned vet; otherwise set
the status to Confirmed unconditionally.  No check of the current status
and no restriction on principals whose role is not vet. -/
def confirmAppointment (db : DB) (u : Principal) (i : Nat) : HRes :=
  match findAppt db i with
  | none => ⟨404, db⟩
  | some a =>
    if u.role == "vet" && a.vetId != u.uid then ⟨403, db⟩
    else
      ⟨200, { db with appts := db.appts.map (fun b =>
        if b.aid == i then { b with astatus := "Confirmed" } else b) }⟩

/-! ### Clinic creation (clinicController versions inside
appointmentController.js, lines 1793-1867 and 2935-2989) -/

/-- Request body of POST /clinics; a missing field is none. -/
structure ClinicBody where
  cname : Option String
  caddress : Option String
  cphone : Option String
  deriving DecidableEq

/-- A submitted location value.  gtype none stands for an absent or falsy
type field, coords none for a value that is not an array. -/
structure GeoPoint where
  gtype : Option String
  coords : Option (List Int)
  deriving DecidableEq

/-- The shared location validation: a provided location is rejected when its
type is missing, its coordinates are not an array, or its type is not
Point. -/
def locationInvalid : Option GeoPoint → Bool
  | none => false
  | some g => g.gtype == none || g.coords == none || g.gtype != some "Point"

/-- createClinic, first version (lines 1793-1867): only a principal with
role vet whose Veterinarian document has accessLevel Primary may create a
clinic; the clinic is appended, pushed onto the ownedClinics of the vet, and
becomes the active clinic when it is the first owned one. -/
def createClinic (db : DB) (u : Option Principal) (newId : Nat)
    (b : ClinicBody) (loc : Option GeoPoint) : HRes :=
  match u with
  | none => ⟨403, db⟩
  | some p =>
    if p.role != "vet" then ⟨403, db⟩
    else
      match findVet db p.uid with
      | none => ⟨403, db⟩
      | some v =>
        if v.accessLevel != "Primary" then ⟨403, db⟩
        else if b.cname == none || b.caddress == none || b.cphone == none then ⟨400, db⟩
        else if locationInvalid loc then ⟨400, db⟩
        else
          let c : Clinic :=
            ⟨newId, b.cname.getD "", b.caddress.getD "", b.cphone.getD "", some v.vid⟩
          let owned := v.ownedClinics ++ [newId]
          let v2 : Vet :=
            { v with
              ownedClinics := owned
              currentActiveClinicId :=
                if owned.length == 1 then some newId else v.currentActiveClinicId }
          ⟨201, { db with
                  clinics := db.clinics ++ [c]
                  vets := db.vets.map (fun w => if w.vid == v.vid then v2 else w) }⟩

/-- createClinic, second version (lines 2935-2989): no role or access-level
check at all inside the handler; whoever is authenticated becomes the
primary vet of the new clinic and has their clinicId pointed at it. -/
def createClinic_vB (db : DB) (u : Principal) (newId : Nat)
    (b : ClinicBody) (loc : Option GeoPoint) : HRes :=
  if b.cname == none || b.caddress == none || b.cphone == none then ⟨400, db⟩
  else if locationInvalid loc then ⟨400, db⟩
  else
    let c : Clinic :=
      ⟨newId, b.cname.getD "", b.caddress.getD "", b.cphone.getD "", some u.uid⟩
    ⟨201, { db with
            clinics := db.clinics ++ [c]
            vets := db.vets.map (fun w =>
              if w.vid == u.uid then { w with clinicId := some newId } else w) }⟩

/-- The POST /api/clinics pipeline of clinicRoutes (part_007 line 41 and
part_008 line 36): protect, authorize(vet), then the handler; with the
second handler version no access-level gate exists anywhere on the path. -/
def createClinicRoute_vB (db : DB) (tok : Option Token) (newId : Nat)
    (b : ClinicBody) (loc : Option GeoPoint) : HRes :=
  match protect db tok with
  | .error e => ⟨e, db⟩
  | .ok u =>
    if !(authorize ["vet"] u) then ⟨403, db⟩
    else createClinic_vB db u newId b loc

/-! ### Pet registration lifecycle (petProfileController versions inside
appointmentController.js) -/

/-- Replace the pet with the given id by the given document. -/
def setPet (db : DB) (p2 : Pet) : DB :=
  { db with pets := db.pets.map (fun q => if q.pid == p2.pid then p2 else q) }

/-- approvePetRegistration, first version (lines 962-996): findOne on id +
registeredClinicId equal to the clinic of the requesting principal +
registrationStatus Pending; 404 when no such pet, otherwise set the status
to Approved.  Mongo equality on a null clinic reference matches a null
registeredClinicId, which Option equality reproduces. -/
def approvePetRegistration (db : DB) (u : Principal) (petId : Nat) : HRes :=
  match db.pets.find? (fun p =>
      p.pid == petId && p.registeredClinicId == u.clinicId
        && p.registrationStatus == "Pending") with
  | none => ⟨404, db⟩
  | some p => ⟨200, setPet db { p with registrationStatus := "Approved" }⟩

/-- approvePetRegistration, second version (lines 1545-1604): resolve the
veterinarian by the principal email, take currentActiveClinicId falling back
to clinicId, then the same Pending-in-this-clinic findOne and the same
transition to Approved. -/
def approvePetRegistration_v2 (db : DB) (u : Principal) (petId : Nat) : HRes :=
  match db.vets.find? (fun v => v.email == u.pemail) with
  | none => ⟨404, db⟩
  | some v =>
    match (match v.currentActiveClinicId with
           | some c => some c
           | none => v.clinicId) with
    | none => ⟨400, db⟩
    | some vc =>
      match db.pets.find? (fun p =>
          p.pid == petId && p.registeredClinicId == some vc
            && p.registrationStatus == "Pending") with
      | none => ⟨404, db⟩
      | some p => ⟨200, setPet db { p with registrationStatus := "Approved" }⟩

/-- rejectPetRegistration (lines 1607-1670): same guard as the approve
handler, transition to Rejected instead. -/
def rejectPetRegistration (db : DB) (u : Principal) (petId : Nat) : HRes :=
  match db.vets.find? (fun v => v.email == u.pemail) with
  | none => ⟨404, db⟩
  | some v =>
    match (match v.currentActiveClinicId with
           | some c => some c
           | none => v.clinicId) with
    | none => ⟨400, db⟩
    | some vc =>
      match db.pets.find? (fun p =>
          p.pid == petId && p.registeredClinicId == some vc
            && p.registrationStatus == "Pending") with
      | none => ⟨404, db⟩
      | some p => ⟨200, setPet db { p with registrationStatus := "Rejected" }⟩

/-- requestClinicRegistration (lines 899-935, identical in both versions):
an owner action that, for any pet whose registrationStatus is not Pending,
sets the status back to Pending and repoints registeredClinicId at the
requested clinic. -/
def requestClinicRegistration (db : DB) (petId : Nat) (clinicId : Option Nat) : HRes :=
  match clinicId with
  | none => ⟨400, db⟩
  | some cid =>
    match findPet db petId with
    | none => ⟨404, db⟩
    | some p =>
      match findClinic db cid with
      | none => ⟨404, db⟩
      | some _ =>
        if p.registrationStatus != "Pending" then
          ⟨200, setPet db { p with registrationStatus := "Pending",
                                   registeredClinicId := some cid }⟩
        else ⟨200, db⟩

/-! ### Registration handlers (petOwnerController.js registerOwner,
part_002 registerVet, appointmentController.js addClinicStaff) -/

/-- Result of a registration handler: HTTP status, the JSON body on success
as an association list of field names to string values (so that deleting the
passwordHash key is observable), and the resulting state. -/
structure RegRes where
  hstatus : Nat
  body : Option (List (String × String))
  db : DB
  deriving DecidableEq

/-- The toLowerCase() normalisation the handlers apply to emails and staff
types, as the character-wise lowercase map (evaluable by the kernel, unlike
the position-indexed String.toLower recursion). -/
def toLowerStr (s : String) : String :=
  ⟨s.data.map Char.toLower⟩

/-- The toObject view of a PetOwner document, as the fields the handler
serialises; the stored credential hash is among them until deleted. -/
def ownerToObject (o : POwner) : List (String × String) :=
  [("firstName", o.firstName), ("lastName", o.lastName),
   ("address", o.address), ("phoneNumber", o.phoneNumber),
   ("email", o.email), ("passwordHash", o.passwordHash)]

/-- The toObject view of a Veterinarian document. -/
def vetToObject (v : Vet) : List (String × String) :=
  [("firstName", v.firstName), ("lastName", v.lastName),
   ("email", v.email), ("passwordHash", v.passwordHash),
   ("veterinaryId", v.veterinaryId), ("accessLevel", v.accessLevel),
   ("status", v.vstatus)]

/-- The toObject view of a ClinicStaff document. -/
def staffToObject (s : Staff) : List (String × String) :=
  [("firstName", s.firstName), ("lastName", s.lastName),
   ("email", s.email), ("passwordHash", s.passwordHash),
   ("role", s.srole), ("accessLevel", s.accessLevel)]

/-- The delete response.passwordHash statement: drop the binding. -/
def dropHash (l : List (String × String)) : List (String × String) :=
  l.filter (fun kv => kv.fst != "passwordHash")

/-- Request body of POST /owners/register. -/
structure OwnerReq where
  firstName : Option String
  lastName : Option String
  address : Option String
  phoneNumber : Option String
  email : Option String
  password : Option String
  location : Option GeoPoint
  deriving DecidableEq

/-- The location validation of registerOwner: type must be Point and
coordinates an array of length two. -/
def ownerLocationInvalid : Option GeoPoint → Bool
  | none => false
  | some g =>
    g.gtype == none || g.gtype != some "Point" || g.coords == none
      || !((g.coords.getD []).length == 2)

/-- registerOwner (petOwnerController.js lines 5-77): required-field check,
duplicate-email check against the PetOwner collection (409), then location
validation, insertion, and a response built from toObject with the
passwordHash key deleted. -/
def registerOwner (db : DB) (newId : Nat) (hash : String) (r : OwnerReq) : RegRes :=
  match r.firstName, r.lastName, r.email, r.password, r.phoneNumber, r.address with
  | some fn, some ln, some em, some _, some ph, some ad =>
    match db.owners.find? (fun o => o.email == toLowerStr em) with
    | some _ => ⟨409, none, db⟩
    | none =>
      if ownerLocationInvalid r.location then ⟨400, none, db⟩
      else
        let o : POwner := ⟨newId, fn, ln, ad, ph, toLowerStr em, hash⟩
        ⟨201, some (dropHash (ownerToObject o)), { db with owners := db.owners ++ [o] }⟩
  | _, _, _, _, _, _ => ⟨400, none, db⟩

/-- Request body of POST /vets/register. -/
structure VetReq where
  firstName : Option String
  lastName : Option String
  email : Option String
  password : Option String
  phoneNumber : Option String
  veterinaryId : Option String
  specialization : Option String
  clinicId : Option Nat
  isPrimaryVet : Bool
  deriving DecidableEq

/-- registerVet (part_002 lines 6-123): required-field check, duplicate
check on lowercased email or license id against the Veterinarian collection
(409), primary-vet clinic resolution (link to an existing clinic without a
primary vet, or auto-create a fresh one), insertion, clinic back-link, and a
response with the passwordHash key deleted. -/
def registerVet (db : DB) (newVetId newClinicId : Nat) (hash : String)
    (r : VetReq) : RegRes :=
  match r.firstName, r.lastName, r.email, r.password, r.veterinaryId, r.phoneNumber with
  | some fn, some ln, some em, some _, some vlic, some ph =>
    match db.vets.find? (fun v => v.email == toLowerStr em || v.veterinaryId == vlic) with
    | some _ => ⟨409, none, db⟩
    | none =>
      if r.isPrimaryVet then
        match r.clinicId with
        | some cid =>
          match findClinic db cid with
          | none => ⟨404, none, db⟩
          | some c =>
            if c.primaryVetId.isSome then ⟨403, none, db⟩
            else
              let v : Vet := ⟨newVetId, fn, ln, toLowerStr em, hash, vlic,
                              "Primary", "Active", some cid, none, []⟩
              let db2 : DB :=
                { db with
                  vets := db.vets ++ [v]
                  clinics := db.clinics.map (fun d =>
                    if d.cid == cid then { d with primaryVetId := some newVetId } else d) }
              ⟨201, some (dropHash (vetToObject v)), db2⟩
        | none =>
          let c : Clinic := ⟨newClinicId, fn ++ " " ++ ln ++ "s Clinic", "", ph, none⟩
          let v : Vet := ⟨newVetId, fn, ln, toLowerStr em, hash, vlic,
                          "Primary", "Active", some newClinicId, none, []⟩
          let db2 : DB :=
            { db with
              vets := db.vets ++ [v]
              clinics := (db.clinics ++ [c]).map (fun d =>
                if d.cid == newClinicId then { d with primaryVetId := some newVetId } else d) }
          ⟨201, some (dropHash (vetToObject v)), db2⟩
      else
        let v : Vet := ⟨newVetId, fn, ln, toLowerStr em, hash, vlic,
                        "Normal Access", "Active", none, none, []⟩
        ⟨201, some (dropHash (vetToObject v)), { db with vets := db.vets ++ [v] }⟩
  | _, _, _, _, _, _ => ⟨400, none, db⟩

/-- Request body of POST /clinics/staff. -/
structure StaffReq where
  staffType : Option String
  firstName : Option String
  lastName : Option String
  email : Option String
  password : Option String
  phoneNumber : Option String
  veterinaryId : Option String
  specialization : Option String
  accessLevel : Option String
  srole : Option String
  clinicId : Option Nat
  deriving DecidableEq

/-- The role to access-level mapping of the non-veterinarian staff branch. -/
def staffAccessOfRole (r : String) : String :=
  if r == "Manager" then "Admin"
  else if r == "Vet Tech" then "Moderate"
  else "Basic"

/-- addClinicStaff (appointmentController.js lines 2122-2360): role check,
creator lookup, Primary-or-Full-Access gate, clinic gate (for a Primary
creator the check degenerates to the truthiness of the ownedClinics array,
which in JavaScript is always true), clinic existence, field validation,
then a branch on the lowercased staffType: a veterinarian sub-account with
its own duplicate check on email or license (409) and a Primary ban, or a
non-vet staff record with a duplicate check on email in ClinicStaff (409)
and the role to access-level mapping; both responses delete passwordHash. -/
def addClinicStaff (db : DB) (u : Option Principal) (newId : Nat) (hash : String)
    (r : StaffReq) : RegRes :=
  match u with
  | none => ⟨403, none, db⟩
  | some p =>
    if p.role != "vet" then ⟨403, none, db⟩
    else
      match findVet db p.uid with
      | none => ⟨404, none, db⟩
      | some creator =>
        if !(creator.accessLevel == "Primary" || creator.accessLevel == "Full Access") then
          ⟨403, none, db⟩
        else
          match r.clinicId with
          | none => ⟨400, none, db⟩
          | some cid =>
            let hasAccess : Bool :=
              if creator.accessLevel == "Primary" then true
              else creator.currentActiveClinicId == some cid
            if !hasAccess then ⟨403, none, db⟩
            else
              match findClinic db cid with
              | none => ⟨404, none, db⟩
              | some _ =>
                match r.staffType, r.firstName, r.lastName, r.email, r.password with
                | some st, some fn, some ln, some em, some _ =>
                  let nem := toLowerStr em
                  let nst := toLowerStr st
                  if nst == "veterinarian" then
                    match r.veterinaryId with
                    | none => ⟨400, none, db⟩
                    | some vlic =>
                      if r.accessLevel == some "Primary" then ⟨403, none, db⟩
                      else
                        match db.vets.find? (fun v =>
                            v.email == nem || v.veterinaryId == vlic) with
                        | some _ => ⟨409, none, db⟩
                        | none =>
                          let v : Vet := ⟨newId, fn, ln, nem, hash, vlic,
                                          r.accessLevel.getD "Normal Access",
                                          "Active", none, some cid, []⟩
                          ⟨201, some (dropHash (vetToObject v)),
                           { db with vets := db.vets ++ [v] }⟩
                  else if ["receptionist", "vettech", "manager", "assistant",
                           "kennelstaff"].contains nst then
                    match r.srole with
                    | none => ⟨400, none, db⟩
                    | some ro =>
                      match db.staff.find? (fun s => s.email == nem) with
                      | some _ => ⟨409, none, db⟩
                      | none =>
                        let s : Staff := ⟨newId, cid, fn, ln, nem, hash,
                                          ro, staffAccessOfRole ro⟩
                        ⟨201, some (dropHash (staffToObject s)),
                         { db with staff := db.staff ++ [s] }⟩
                  else ⟨400, none, db⟩
                | _, _, _, _, _ => ⟨400, none, db⟩

/-! ### Listing and fetch endpoints for pets, prescriptions and medical
records.  Sort clauses are elided (each proved property is membership-based
and invariant under the permutation a sort performs). -/

/-- getPetsByOwner (appointmentController.js lines 768-802, identical in the
second version at 1091): owner must exist; the query excludes soft-deleted
pets and optionally filters on registrationStatus. -/
def getPetsByOwner (db : DB) (ownerId : Nat) (statusQ : Option String) :
    Nat × List Pet :=
  match findOwner db ownerId with
  | none => (404, [])
  | some _ =>
    (200, db.pets.filter (fun p =>
      p.ownerId == ownerId && p.isDeleted != true
        && (match statusQ with
            | some s => p.registrationStatus == s
            | none => true)))

/-- getPetById (lines 805-824): plain findById with no soft-delete filter; a
soft-deleted pet is still returned. -/
def getPetById (db : DB) (i : Nat) : Nat × Option Pet :=
  match findPet db i with
  | none => (404, none)
  | some p => (200, some p)

/-- getPrescriptionsByPet, first version (prescriptionController.js lines
82-117): pet must exist; the query filters on petId, optionally on a valid
type, and with activeOnly on a future dueDate.  No soft-delete filter in
this version. -/
def getPrescriptionsByPet (db : DB) (petId : Nat)
    (typeQ activeOnly : Option String) (today : Nat) : Nat × List Rx :=
  match findPet db petId with
  | none => (404, [])
  | some _ =>
    (200, db.rxs.filter (fun x =>
      x.petId == petId
        && (match typeQ with
            | some t =>
              if t == "Medication" || t == "Vaccination" then x.rxType == t else true
            | none => true)
        && (if activeOnly == some "true" then
              match x.dueDate with
              | some d => today ≤ d
              | none => false
            else true)))

/-- getPrescriptionsByPet, second version (lines 387-441): same shape plus
the isDeleted exclusion in the base query. -/
def getPrescriptionsByPet_v2 (db : DB) (petId : Nat)
    (typeQ activeOnly : Option String) (today : Nat) : Nat × List Rx :=
  match findPet db petId with
  | none => (404, [])
  | some _ =>
    (200, db.rxs.filter (fun x =>
      x.petId == petId && x.isDeleted != true
        && (match typeQ with
            | some t =>
              if t == "Medication" || t == "Vaccination" then x.rxType == t else true
            | none => true)
        && (if activeOnly == some "true" then
              match x.dueDate with
              | some d => today ≤ d
              | none => false
            else true)))

/-- getRecordsByPet (medicalRecordController.js lines 61-105): pet must
exist; the query excludes soft-deleted records and, when the ownerView query
parameter is the string true, restricts to records with visibleToOwner;
pagination drops (page-1)*limit entries and takes limit. -/
def getRecordsByPet (db : DB) (petId : Nat) (ownerView : Option String)
    (page limit : Nat) : Nat × List MRecord :=
  match findPet db petId with
  | none => (404, [])
  | some _ =>
    let base := db.records.filter (fun r =>
      r.petId == petId && r.isDeleted != true
        && (if ownerView == some "true" then r.visibleToOwner else true))
    (200, (base.drop ((page - 1) * limit)).take limit)

/-- The GET /medical-records/pet/:petId route (petOwnerRoutes.js second
document, lines 104-119): an owner must own the pet and has ownerView forced
to true; a vet passes the query through; anyone else is rejected. -/
def getRecordsByPetRoute (db : DB) (u : Principal) (petId : Nat)
    (ownerView : Option String) (page limit : Nat) : Nat × List MRecord :=
  if u.role == "owner" then
    match findPet db petId with
    | none => (404, [])
    | some p =>
      if p.ownerId != u.uid then (403, [])
      else getRecordsByPet db petId (some "true") page limit
  else if u.role == "vet" then getRecordsByPet db petId ownerView page limit
  else (403, [])

/-- getRecordById (medicalRecordController.js lines 108-136): findById, then
403 when the record is not visibleToOwner and the principal role is owner. -/
def getRecordById (db : DB) (u : Principal) (i : Nat) : Nat × Option MRecord :=
  match findRecord db i with
  | none => (404, none)
  | some r =>
    if !r.visibleToOwner && u.role == "owner" then (403, none)
    else (200, some r)

/-! ### Shared fixtures and helper lemmas -/

/-- The empty database. -/
def db0 : DB := ⟨[], [], [], [], [], [], [], []⟩

/-- Fixture: one pet of owner 2 and a Booked appointment of vet 3 at
time 100. -/
def dbConflict : DB :=
  ⟨[], [], [], [], [⟨1, 2, none, "Pending", false⟩],
   [⟨8, 1, 2, 4, 3, 100, "Booked"⟩], [], []⟩

/-- Fixture: one pet of owner 2 and no appointments. -/
def dbFree : DB :=
  ⟨[], [], [], [], [⟨1, 2, none, "Pending", false⟩], [], [], []⟩

/-- Fixture: a Primary vet whose active clinic is clinic 5. -/
def vetPrim : Vet :=
  ⟨3, "G", "M", "v@x", "H", "L", "Primary", "Active", none, some 5, []⟩

/-- Fixture: the principal the middleware builds for vetPrim. -/
def uPrim : Principal := ⟨3, "v@x", "vet", some "Primary", some 5⟩

/-- Fixture: vetPrim, clinic 6 and a pet Approved at clinic 5. -/
def dbApproved : DB :=
  ⟨[], [vetPrim], [], [⟨6, "C", "A", "P", none⟩],
   [⟨1, 2, some 5, "Approved", false⟩], [], [], []⟩

/-- Fixture: vetPrim, clinic 6 and a pet Pending at clinic 5. -/
def dbPending : DB :=
  ⟨[], [vetPrim], [], [⟨6, "C", "A", "P", none⟩],
   [⟨1, 2, some 5, "Pending", false⟩], [], [], []⟩

/-- Looking up the deleted key in a response that went through dropHash
always misses. -/
theorem lookup_dropHash (l : List (String × String)) :
    (dropHash l).lookup "passwordHash" = none := by
  induction l with
  | nil => rfl
  | cons a t ih =>
    by_cases h : a.fst = "passwordHash"
    · simpa [dropHash, List.filter_cons, h] using ih
    · have hb : (a.fst != "passwordHash") = true := by
        simp [bne_iff_ne, h]
      have hk : (("passwordHash" : String) == a.fst) = false := by
        simp [beq_iff_eq]
        exact fun hh => h hh.symm
      simpa [dropHash, List.filter_cons, hb, List.lookup, hk] using ih

/-- Membership in a page of a paginated list implies membership in the
underlying list. -/
theorem mem_of_mem_page {α : Type} {x : α} {l : List α} {d t : Nat}
    (hx : x ∈ (l.drop d).take t) : x ∈ l :=
  List.drop_subset d l (List.take_subset t _ hx)

/-! ### C10 -/

/-- C10: confirmAppointment checks neither the current status nor
non-veterinarian principals.  For every existing appointment, whenever the
requester is not a vet (in particular any owner) or is the assigned vet, the
request returns 200 and the stored appointment status becomes Confirmed,
with no hypothesis on the prior status (it may be Canceled or Completed). -/
theorem confirmAppointment_unconditional
    (db : DB) (u : Principal) (i : Nat) (a : Appt)
    (hfind : findAppt db i = some a)
    (hok : u.role ≠ "vet" ∨ a.vetId = u.uid) :
    (confirmAppointment db u i).hstatus = 200 ∧
      ∀ b ∈ (confirmAppointment db u i).db.appts, b.aid = i →
        b.astatus = "Confirmed" := by
  have hcond : (u.role == "vet" && a.vetId != u.uid) = false := by
    rcases hok with h | h
    · simp [beq_iff_eq, h]
    · simp [h]
  unfold confirmAppointment
  rw [hfind]
  dsimp only
  rw [hcond]
  simp only [Bool.false_eq_true, if_false]
  refine ⟨by trivial, ?_⟩
  intro b hb hbi
  simp only [List.mem_map] at hb
  obtain ⟨c, _, hcb⟩ := hb
  by_cases hc : (c.aid == i) = true
  · rw [if_pos hc] at hcb
    rw [← hcb]
  · rw [if_neg hc] at hcb
    subst hcb
    exact absurd (by simpa [beq_iff_eq] using hbi) hc

/-- Witness for C10: a canceled appointment of vet 5 is confirmed by an
owner principal who is neither the pet owner nor the vet. -/
theorem confirmAppointment_unconditional_witness :
    (confirmAppointment
        ⟨[], [], [], [], [], [⟨1, 2, 3, 4, 5, 100, "Canceled"⟩], [], []⟩
        ⟨9, "x@y", "owner", none, none⟩ 1).hstatus = 200 ∧
      ∀ b ∈ (confirmAppointment
          ⟨[], [], [], [], [], [⟨1, 2, 3, 4, 5, 100, "Canceled"⟩], [], []⟩
          ⟨9, "x@y", "owner", none, none⟩ 1).db.appts, b.aid = 1 →
        b.astatus = "Confirmed" :=
  confirmAppointment_unconditional _ _ 1 ⟨1, 2, 3, 4, 5, 100, "Canceled"⟩
    (by decide) (Or.inl (by decide))

/-! ### C8 -/

/-- C8: a medical record with visibleToOwner false is excluded from the
listing an owner obtains through the records-by-pet route, and fetching it
directly with an owner principal yields 403 with no record. -/
theorem hidden_record_owner_access
    (db : DB) (u : Principal) (petId j page limit : Nat)
    (ov : Option String) (r : MRecord)
    (ho : u.role = "owner")
    (hvis : r.visibleToOwner = false)
    (hfind : findRecord db j = some r) :
    r ∉ (getRecordsByPetRoute db u petId ov page limit).2 ∧
      getRecordById db u j = (403, none) := by
  constructor
  · intro hmem
    unfold getRecordsByPetRoute at hmem
    rw [ho] at hmem
    simp only [beq_self_eq_true, if_true] at hmem
    rcases hpet : findPet db petId with _ | p
    · rw [hpet] at hmem; simp at hmem
    · rw [hpet] at hmem
      dsimp only at hmem
      by_cases hown : (p.ownerId != u.uid) = true
      · rw [if_pos hown] at hmem; simp at hmem
      · rw [if_neg hown] at hmem
        unfold getRecordsByPet at hmem
        rw [hpet] at hmem
        dsimp only at hmem
        have hbase := mem_of_mem_page hmem
        have hpred := (List.mem_filter.mp hbase).2
        simp only [Bool.and_eq_true] at hpred
        have hv := hpred.2
        rw [hvis] at hv
        simp at hv
  · unfold getRecordById
    rw [hfind]
    dsimp only
    rw [hvis, ho]
    simp

/-- Witness for C8: a hidden record of pet 1 is invisible to its owner both
in the listing and on direct fetch. -/
theorem hidden_record_owner_access_witness :
    (⟨4, 1, 6, false, false⟩ : MRecord) ∉
        (getRecordsByPetRoute
          ⟨[], [], [], [], [⟨1, 2, none, "Approved", false⟩], [],
           [⟨4, 1, 6, false, false⟩], []⟩
          ⟨2, "o@y", "owner", none, none⟩ 1 none 1 20).2 ∧
      getRecordById
          ⟨[], [], [], [], [⟨1, 2, none, "Approved", false⟩], [],
           [⟨4, 1, 6, false, false⟩], []⟩
          ⟨2, "o@y", "owner", none, none⟩ 4 = (403, none) :=
  hidden_record_owner_access _ _ 1 4 1 20 none ⟨4, 1, 6, false, false⟩
    rfl rfl (by decide)

/-! ### C6 -/

/-- Every body a registration handler can return is either absent or went
through the passwordHash deletion. -/
theorem body_no_hash {res : RegRes} {b : List (String × String)}
    (hform : res.body = none ∨ ∃ l, res.body = some (dropHash l))
    (hb : res.body = some b) : b.lookup "passwordHash" = none := by
  rcases hform with hn | ⟨l, hl⟩
  · rw [hn] at hb; cases hb
  · rw [hl] at hb
    obtain rfl := (Option.some.inj hb).symm
    exact lookup_dropHash l

/-- Shape of every registerOwner response body. -/
theorem registerOwner_body_shape (db : DB) (n : Nat) (h : String) (r : OwnerReq) :
    (registerOwner db n h r).body = none ∨
      ∃ l, (registerOwner db n h r).body = some (dropHash l) := by
  unfold registerOwner
  repeat' split
  all_goals first
    | exact Or.inl rfl
    | exact Or.inr ⟨_, rfl⟩

/-- Shape of every registerVet response body. -/
theorem registerVet_body_shape (db : DB) (n ncl : Nat) (h : String) (r : VetReq) :
    (registerVet db n ncl h r).body = none ∨
      ∃ l, (registerVet db n ncl h r).body = some (dropHash l) := by
  unfold registerVet
  repeat' split
  all_goals first
    | exact Or.inl rfl
    | exact Or.inr ⟨_, rfl⟩

/-- Shape of every addClinicStaff response body. -/
theorem addClinicStaff_body_shape (db : DB) (u : Option Principal) (n : Nat)
    (h : String) (r : StaffReq) :
    (addClinicStaff db u n h r).body = none ∨
      ∃ l, (addClinicStaff db u n h r).body = some (dropHash l) := by
  unfold addClinicStaff
  dsimp only
  repeat' split
  all_goals first
    | exact Or.inl rfl
    | exact Or.inr ⟨_, rfl⟩

/-- C6: no 201 response of registerOwner, registerVet or addClinicStaff
carries the stored passwordHash of the created account: whenever a response
body exists at all, looking up passwordHash in it misses. -/
theorem registration_no_credential_leak
    (db1 db2 db3 : DB) (n1 n2 ncl n3 : Nat) (h1 h2 h3 : String)
    (ro : OwnerReq) (rv : VetReq) (rs : StaffReq) (u : Option Principal)
    (bo bv bs : List (String × String))
    (hbo : (registerOwner db1 n1 h1 ro).body = some bo)
    (hbv : (registerVet db2 n2 ncl h2 rv).body = some bv)
    (hbs : (addClinicStaff db3 u n3 h3 rs).body = some bs) :
    bo.lookup "passwordHash" = none ∧ bv.lookup "passwordHash" = none ∧
      bs.lookup "passwordHash" = none :=
  ⟨body_no_hash (registerOwner_body_shape db1 n1 h1 ro) hbo,
   body_no_hash (registerVet_body_shape db2 n2 ncl h2 rv) hbv,
   body_no_hash (addClinicStaff_body_shape db3 u n3 h3 rs) hbs⟩

/-- Witness for C6: a successful owner registration, a successful vet
registration and a successful staff provisioning each return a body without
the passwordHash key. -/
theorem registration_no_credential_leak_witness :
    (dropHash (ownerToObject ⟨1, "F", "L", "A", "P", "e@x", "H"⟩)).lookup
        "passwordHash" = none ∧
      (dropHash (vetToObject ⟨2, "F", "L", "v@x", "H", "LIC1", "Normal Access",
          "Active", none, none, []⟩)).lookup "passwordHash" = none ∧
      (dropHash (staffToObject ⟨3, 5, "F", "L", "s@x", "H", "Receptionist",
          "Basic"⟩)).lookup "passwordHash" = none :=
  registration_no_credential_leak db0 db0
    ⟨[], [⟨9, "C", "D", "c@x", "h", "L9", "Primary", "Active", none, none, []⟩],
     [], [⟨5, "Cl", "a", "p", none⟩], [], [], [], []⟩
    1 2 7 3 "H" "H" "H"
    ⟨some "F", some "L", some "A", some "P", some "e@x", some "pw", none⟩
    ⟨some "F", some "L", some "v@x", some "pw", some "P", some "LIC1", none, none, false⟩
    ⟨some "receptionist", some "F", some "L", some "s@x", some "pw", none, none,
     none, none, some "Receptionist", some 5⟩
    (some ⟨9, "c@x", "vet", some "Primary", none⟩)
    _ _ _ (by decide) (by decide) (by decide)

/-! ### C7 -/

/-- Counterexample to C7 as stated: a registerOwner request whose email
already belongs to an existing owner but whose payload is missing the
address field is answered with 400, not with the claimed 409, because the
required-field validation runs before the duplicate check. -/
theorem duplicate_with_invalid_payload_counterexample :
    (let db : DB :=
      ⟨[⟨1, "F", "L", "A", "P", "a@x", "H"⟩], [], [], [], [], [], [], []⟩
     let r : OwnerReq :=
      ⟨some "F2", some "L2", none, some "P2", some "a@x", some "pw", none⟩
     (db.owners.find? (fun o => o.email == toLowerStr "a@x")).isSome ∧
       (registerOwner db 2 "H2" r).hstatus = 400) := by
  decide

/-- C7 amended: for every registration request that passes the field
validation (and, for staff provisioning, whose requester passes the
authentication, access-level and clinic checks) and whose email — or, for
veterinarians, license id — already belongs to a record of the corresponding
collection, the request returns 409 and the state is unchanged, so no second
record is created; a duplicate inside an otherwise invalid or unauthorised
request is rejected with the respective 400/403 status instead, with the
state equally unchanged. -/
theorem duplicate_registration_conflict :
    (∀ (db : DB) (n : Nat) (h fn ln em pw ph ad : String) (lo : Option GeoPoint),
      (db.owners.find? (fun o => o.email == toLowerStr em)).isSome →
      registerOwner db n h ⟨some fn, some ln, some ad, some ph, some em, some pw, lo⟩
        = ⟨409, none, db⟩) ∧
    (∀ (db : DB) (n ncl : Nat) (h fn ln em pw ph vlic : String)
        (sp : Option String) (cl : Option Nat) (ip : Bool),
      (db.vets.find? (fun v =>
          v.email == toLowerStr em || v.veterinaryId == vlic)).isSome →
      registerVet db n ncl h
          ⟨some fn, some ln, some em, some pw, some ph, some vlic, sp, cl, ip⟩
        = ⟨409, none, db⟩) ∧
    (∀ (db : DB) (n cid : Nat) (h fn ln em pw vlic : String)
        (ph sp : Option String) (p : Principal) (creator : Vet),
      p.role = "vet" → findVet db p.uid = some creator →
      creator.accessLevel = "Primary" → (findClinic db cid).isSome →
      (db.vets.find? (fun v =>
          v.email == toLowerStr em || v.veterinaryId == vlic)).isSome →
      addClinicStaff db (some p) n h
          ⟨some "veterinarian", some fn, some ln, some em, some pw, ph,
           some vlic, sp, none, none, some cid⟩
        = ⟨409, none, db⟩) ∧
    (∀ (db : DB) (n cid : Nat) (h fn ln em pw ro2 : String)
        (ph : Option String) (p : Principal) (creator : Vet),
      p.role = "vet" → findVet db p.uid = some creator →
      creator.accessLevel = "Primary" → (findClinic db cid).isSome →
      (db.staff.find? (fun s => s.email == toLowerStr em)).isSome →
      addClinicStaff db (some p) n h
          ⟨some "receptionist", some fn, some ln, some em, some pw, ph,
           none, none, none, some ro2, some cid⟩
        = ⟨409, none, db⟩) := by
  refine ⟨?_, ?_, ?_, ?_⟩
  · intro db n h fn ln em pw ph ad lo hdup
    obtain ⟨o, ho⟩ := Option.isSome_iff_exists.mp hdup
    unfold registerOwner
    dsimp only
    rw [ho]
  · intro db n ncl h fn ln em pw ph vlic sp cl ip hdup
    obtain ⟨v, hv⟩ := Option.isSome_iff_exists.mp hdup
    unfold registerVet
    dsimp only
    rw [hv]
  · intro db n cid h fn ln em pw vlic ph sp p creator hrole hvet hacc hcl hdup
    obtain ⟨c, hc⟩ := Option.isSome_iff_exists.mp hcl
    obtain ⟨v, hv⟩ := Option.isSome_iff_exists.mp hdup
    unfold addClinicStaff
    dsimp only
    rw [hrole, hvet]
    dsimp only
    rw [hacc, hc, hv]
    simp
    decide
  · intro db n cid h fn ln em pw ro2 ph p creator hrole hvet hacc hcl hdup
    obtain ⟨c, hc⟩ := Option.isSome_iff_exists.mp hcl
    obtain ⟨s, hs⟩ := Option.isSome_iff_exists.mp hdup
    unfold addClinicStaff
    dsimp only
    rw [hrole, hvet]
    dsimp only
    rw [hacc, hc, hs]
    simp
    rw [if_neg (by decide), if_pos (by decide)]

/-- Witness for C7: each amended branch evaluated at a concrete duplicate. -/
theorem duplicate_registration_conflict_witness :
    (registerOwner ⟨[⟨1, "F", "L", "A", "P", "a@x", "H"⟩], [], [], [], [], [], [], []⟩
        2 "H2" ⟨some "F2", some "L2", some "A2", some "P2", some "a@x", some "pw", none⟩
      = ⟨409, none, ⟨[⟨1, "F", "L", "A", "P", "a@x", "H"⟩], [], [], [], [], [], [], []⟩⟩) ∧
    (registerVet ⟨[], [⟨3, "G", "M", "b@x", "H", "LIC", "Normal Access", "Active",
          none, none, []⟩], [], [], [], [], [], []⟩
        4 5 "H2" ⟨some "F", some "L", some "b@x", some "pw", some "P", some "LIC2",
          none, none, false⟩
      = ⟨409, none, ⟨[], [⟨3, "G", "M", "b@x", "H", "LIC", "Normal Access", "Active",
          none, none, []⟩], [], [], [], [], [], []⟩⟩) := by
  constructor
  · exact duplicate_registration_conflict.1 _ 2 "H2" "F2" "L2" "a@x" "pw" "P2" "A2" none
      (by decide)
  · exact duplicate_registration_conflict.2.1 _ 4 5 "H2" "F" "L" "b@x" "pw" "P" "LIC2"
      none none false (by decide)

/-! ### C9 -/

/-- Counterexample to C9 as stated: the first getPrescriptionsByPet version
carries no isDeleted filter, so a soft-deleted prescription still appears in
the default listing. -/
theorem prescriptions_v1_lists_soft_deleted :
    (let db : DB := ⟨[], [], [], [], [⟨1, 2, none, "Approved", false⟩], [], [],
        [⟨7, 1, "Medication", none, true⟩]⟩
     (⟨7, 1, "Medication", none, true⟩ : Rx).isDeleted = true ∧
       (⟨7, 1, "Medication", none, true⟩ : Rx) ∈
         (getPrescriptionsByPet db 1 none none 0).2) := by
  decide

/-- C9 amended: soft-deleted pets and medical records are excluded from the
default list queries (getPetsByOwner, getRecordsByPet), and soft-deleted
prescriptions are excluded by the second getPrescriptionsByPet version (the
first version lacks the filter and still lists them); fetch-by-id ignores
the flag, so a soft-deleted pet is still returned by getPetById. -/
theorem soft_delete_visibility
    (db : DB) (ownerId petId i page limit today : Nat)
    (sq ov tq ao : Option String) :
    (∀ p ∈ (getPetsByOwner db ownerId sq).2, p.isDeleted = false) ∧
    (∀ r ∈ (getRecordsByPet db petId ov page limit).2, r.isDeleted = false) ∧
    (∀ x ∈ (getPrescriptionsByPet_v2 db petId tq ao today).2, x.isDeleted = false) ∧
    (∀ p, findPet db i = some p → getPetById db i = (200, some p)) := by
  refine ⟨?_, ?_, ?_, ?_⟩
  · intro p hp
    unfold getPetsByOwner at hp
    rcases ho : findOwner db ownerId with _ | o <;> rw [ho] at hp
    · simp at hp
    · dsimp only at hp
      have hpred := (List.mem_filter.mp hp).2
      simp only [Bool.and_eq_true, bne_iff_ne] at hpred
      simpa using hpred.1.2
  · intro r hr
    unfold getRecordsByPet at hr
    rcases hpt : findPet db petId with _ | q <;> rw [hpt] at hr
    · simp at hr
    · dsimp only at hr
      have hpred := (List.mem_filter.mp (mem_of_mem_page hr)).2
      simp only [Bool.and_eq_true, bne_iff_ne] at hpred
      simpa using hpred.1.2
  · intro x hx
    unfold getPrescriptionsByPet_v2 at hx
    rcases hpt : findPet db petId with _ | q <;> rw [hpt] at hx
    · simp at hx
    · dsimp only at hx
      have hpred := (List.mem_filter.mp hx).2
      simp only [Bool.and_eq_true, bne_iff_ne] at hpred
      simpa using hpred.1.1.2
  · intro p hp
    unfold getPetById
    rw [hp]

/-- Witness for C9: a soft-deleted pet is still returned by getPetById. -/
theorem soft_delete_visibility_witness :
    getPetById ⟨[], [], [], [], [⟨1, 2, none, "Approved", true⟩], [], [], []⟩ 1
      = (200, some ⟨1, 2, none, "Approved", true⟩) :=
  (soft_delete_visibility ⟨[], [], [], [], [⟨1, 2, none, "Approved", true⟩], [], [], []⟩
      2 1 1 1 20 0 none none none none).2.2.2 _ (by decide)

/-! ### C1 -/

/-- Counterexample to C1 as stated: a request with all required fields for
an existing pet and with no conflicting appointment is nevertheless rejected
with 403 and creates nothing, because the pet is registered with a clinic
other than the requested one — a precondition the claim omits. -/
theorem bookAppointment_clinic_mismatch_refutes :
    (let db : DB := ⟨[], [], [], [], [⟨1, 2, some 5, "Approved", false⟩], [], [], []⟩
     let r : BookReq := ⟨some 1, some 6, some 3, some 100⟩
     (findPet db 1).isSome ∧ apptConflict db 3 100 = none ∧
       (bookAppointment db 9 r).hstatus = 403 ∧
       (bookAppointment db 9 r).db.appts = []) := by
  decide

/-- C1 amended: for every bookAppointment request with all required fields
that refer to an existing pet whose registeredClinicId, when set, equals the
requested clinicId (and, in the part_001 version, whose requester is not an
owner other than the owner of the pet): if a non-terminal appointment with
the same vetId and dateTime exists the request returns 409 and the state is
unchanged; otherwise a Booked appointment is appended and both versions
agree on the 201 result. -/
theorem bookAppointment_slot_exclusivity
    (db : DB) (u : Principal) (nid : Nat) (r : BookReq)
    (petId clinicId vetId dt : Nat) (pet : Pet)
    (h1 : r.petId = some petId) (h2 : r.clinicId = some clinicId)
    (h3 : r.vetId = some vetId) (h4 : r.dateTime = some dt)
    (hp : findPet db petId = some pet)
    (hc : pet.registeredClinicId = none ∨ pet.registeredClinicId = some clinicId)
    (ho : ¬(u.role = "owner" ∧ pet.ownerId ≠ u.uid)) :
    ((apptConflict db vetId dt).isSome →
        bookAppointment db nid r = ⟨409, db⟩ ∧
        bookAppointment_vB db u nid r = ⟨409, db⟩) ∧
    (apptConflict db vetId dt = none →
        bookAppointment db nid r =
          ⟨201, { db with appts := db.appts ++
              [⟨nid, petId, pet.ownerId, clinicId, vetId, dt, "Booked"⟩] }⟩ ∧
        bookAppointment_vB db u nid r = bookAppointment db nid r) := by
  have hcc : (pet.registeredClinicId.isSome
      && pet.registeredClinicId != some clinicId) = false := by
    rcases hc with h | h <;> simp [h]
  have hoc : (u.role == "owner" && pet.ownerId != u.uid) = false := by
    by_cases hr : u.role = "owner"
    · have heq : pet.ownerId = u.uid := by
        by_contra hne; exact ho ⟨hr, hne⟩
      simp [heq]
    · simp [beq_iff_eq, hr]
  constructor
  · intro hsome
    obtain ⟨a, ha⟩ := Option.isSome_iff_exists.mp hsome
    constructor
    · unfold bookAppointment
      rw [h1, h2, h3, h4]
      dsimp only
      rw [hp]
      dsimp only
      rw [hcc]
      simp only [Bool.false_eq_true, if_false]
      rw [ha]
    · unfold bookAppointment_vB
      rw [h1, h2, h3, h4]
      dsimp only
      rw [hp]
      dsimp only
      rw [hoc]
      simp only [Bool.false_eq_true, if_false]
      rw [hcc]
      simp only [Bool.false_eq_true, if_false]
      rw [ha]
  · intro hnone
    have e1 : bookAppointment db nid r =
        ⟨201, { db with appts := db.appts ++
            [⟨nid, petId, pet.ownerId, clinicId, vetId, dt, "Booked"⟩] }⟩ := by
      unfold bookAppointment
      rw [h1, h2, h3, h4]
      dsimp only
      rw [hp]
      dsimp only
      rw [hcc]
      simp only [Bool.false_eq_true, if_false]
      rw [hnone]
    refine ⟨e1, ?_⟩
    rw [e1]
    unfold bookAppointment_vB
    rw [h1, h2, h3, h4]
    dsimp only
    rw [hp]
    dsimp only
    rw [hoc]
    simp only [Bool.false_eq_true, if_false]
    rw [hcc]
    simp only [Bool.false_eq_true, if_false]
    rw [hnone]

/-- Witness for C1: the conflict branch at a Booked collision and the free
branch on an empty calendar, for both bookAppointment versions. -/
theorem bookAppointment_slot_exclusivity_witness :
    (bookAppointment dbConflict 9 ⟨some 1, some 4, some 3, some 100⟩
        = ⟨409, dbConflict⟩ ∧
      bookAppointment_vB dbConflict ⟨2, "o@x", "owner", none, none⟩ 9
          ⟨some 1, some 4, some 3, some 100⟩ = ⟨409, dbConflict⟩) ∧
    (bookAppointment dbFree 9 ⟨some 1, some 4, some 3, some 100⟩
        = ⟨201, { dbFree with appts := dbFree.appts
            ++ [⟨9, 1, 2, 4, 3, 100, "Booked"⟩] }⟩ ∧
      bookAppointment_vB dbFree ⟨2, "o@x", "owner", none, none⟩ 9
          ⟨some 1, some 4, some 3, some 100⟩
        = bookAppointment dbFree 9 ⟨some 1, some 4, some 3, some 100⟩) :=
  ⟨(bookAppointment_slot_exclusivity dbConflict ⟨2, "o@x", "owner", none, none⟩ 9
      ⟨some 1, some 4, some 3, some 100⟩ 1 4 3 100 ⟨1, 2, none, "Pending", false⟩
      rfl rfl rfl rfl (by decide) (Or.inl rfl) (by decide)).1 (by decide),
   (bookAppointment_slot_exclusivity dbFree ⟨2, "o@x", "owner", none, none⟩ 9
      ⟨some 1, some 4, some 3, some 100⟩ 1 4 3 100 ⟨1, 2, none, "Pending", false⟩
      rfl rfl rfl rfl (by decide) (Or.inl rfl) (by decide)).2 (by decide)⟩

/-! ### C2 -/

/-- Counterexample to C2 as stated: the second protect version looks the
subject up in the PetOwner collection first, so a legacy token whose subject
id exists in both collections resolves to role owner, not vet. -/
theorem protect_v2_probes_owner_first :
    (let db : DB := ⟨[⟨1, "F", "L", "A", "P", "o@x", "H"⟩],
        [⟨1, "G", "M", "v@x", "H", "LIC", "Primary", "Active", none, none, []⟩],
        [], [], [], [], [], []⟩
     (findVet db 1).isSome ∧
       protect_v2 db (some ⟨some 1, none⟩) = .ok ⟨1, "o@x", "owner", none, none⟩) := by
  constructor
  · decide
  · rfl

/-- C2 amended: the first protect version resolves a legacy token (no role
claim) by probing the Veterinarian collection first, so a subject id present
in both collections resolves to role vet (given the vet account is Active);
the second protect version probes PetOwner first and resolves such a subject
to owner instead. -/
theorem protect_legacy_vet_first
    (db : DB) (t : Token) (uid : Nat) (v : Vet) (o : POwner)
    (hid : t.tid = some uid)
    (hrole : t.trole = none)
    (hv : findVet db uid = some v)
    (hact : v.vstatus = "Active")
    (how : findOwner db uid = some o) :
    protect db (some t)
      = .ok ⟨v.vid, v.email, "vet", some v.accessLevel, v.currentActiveClinicId⟩ := by
  unfold protect
  dsimp only
  rw [hid]
  dsimp only
  rw [hrole]
  dsimp only
  unfold fallbackRole
  rw [hv]
  simp only [Option.isSome_some, if_true]
  have hvo : (("vet" : String) == "owner") = false := by decide
  rw [hvo]
  simp only [Bool.false_eq_true, if_false]
  rw [hact]
  simp

/-- Witness for C2: a subject id present in both collections, with the vet
account Active, resolves to a vet principal under the first protect
version. -/
theorem protect_legacy_vet_first_witness :
    protect ⟨[⟨1, "F", "L", "A", "P", "o@x", "H"⟩],
        [⟨1, "G", "M", "v@x", "H", "LIC", "Primary", "Active", none, none, []⟩],
        [], [], [], [], [], []⟩ (some ⟨some 1, none⟩)
      = .ok ⟨1, "v@x", "vet", some "Primary", none⟩ :=
  protect_legacy_vet_first _ ⟨some 1, none⟩ 1
    ⟨1, "G", "M", "v@x", "H", "LIC", "Primary", "Active", none, none, []⟩
    ⟨1, "F", "L", "A", "P", "o@x", "H"⟩
    rfl rfl (by decide) rfl (by decide)

/-! ### C5 -/

/-- Counterexample to C5 as stated: the second protect version performs no
status check, so a Deactivated veterinarian with a valid token is attached
as a principal and the protected handler runs. -/
theorem protect_v2_passes_inactive_vet :
    (let db : DB := ⟨[], [⟨7, "G", "M", "v@x", "H", "L", "Normal Access",
        "Deactivated", none, none, []⟩], [], [], [], [], [], []⟩
     (∀ v, findVet db 7 = some v → v.vstatus ≠ "Active") ∧
       protect_v2 db (some ⟨some 7, some "vet"⟩)
         = .ok ⟨7, "v@x", "vet", some "Normal Access", none⟩) := by
  constructor
  · intro v hv
    have hv2 : some (⟨7, "G", "M", "v@x", "H", "L", "Normal Access",
        "Deactivated", none, none, []⟩ : Vet) = some v := by
      rw [← hv]; rfl
    injection hv2 with h
    rw [← h]
    decide
  · rfl

/-- C5 amended: the first protect version rejects, with 401, every request
whose verified token resolves to a Veterinarian (embedded vet role or legacy
fallback) whose status is not Active, even though the credential is valid;
the second protect version attaches the principal without any status check
and the handler is invoked. -/
theorem protect_rejects_inactive_vet
    (db : DB) (t : Token) (uid : Nat) (v : Vet)
    (hid : t.tid = some uid)
    (hrole : t.trole = some "vet" ∨ t.trole = none)
    (hv : findVet db uid = some v)
    (hact : v.vstatus ≠ "Active") :
    protect db (some t) = .error 401 := by
  have hne : (v.vstatus != "Active") = true := by
    simp [bne_iff_ne, hact]
  unfold protect
  dsimp only
  rw [hid]
  dsimp only
  rcases hrole with hr | hr <;> rw [hr]
  · dsimp only
    have : (("vet" : String) == "owner" || ("vet" : String) == "vet") = true := by decide
    rw [this]
    simp only [if_true]
    have hvo : (("vet" : String) == "owner") = false := by decide
    rw [hvo]
    simp only [Bool.false_eq_true, if_false]
    rw [hv]
    dsimp only
    rw [hne]
    simp
  · dsimp only
    unfold fallbackRole
    rw [hv]
    simp only [Option.isSome_some, if_true]
    have hvo : (("vet" : String) == "owner") = false := by decide
    rw [hvo]
    simp only [Bool.false_eq_true, if_false]
    rw [hne]
    simp

/-- Witness for C5: a Deactivated vet with a valid vet-role token is turned
away with 401 by the first protect version. -/
theorem protect_rejects_inactive_vet_witness :
    protect ⟨[], [⟨7, "G", "M", "v@x", "H", "L", "Normal Access",
        "Deactivated", none, none, []⟩], [], [], [], [], [], []⟩
      (some ⟨some 7, some "vet"⟩) = .error 401 :=
  protect_rejects_inactive_vet _ ⟨some 7, some "vet"⟩ 7
    ⟨7, "G", "M", "v@x", "H", "L", "Normal Access", "Deactivated", none, none, []⟩
    rfl (Or.inl rfl) (by decide) (by decide)

/-! ### C3 -/

/-- Fixture: a single Normal Access active veterinarian. -/
def vetNA : Vet :=
  ⟨1, "G", "M", "v@x", "H", "L", "Normal Access", "Active", none, none, []⟩

/-- Fixture: the database holding only vetNA. -/
def dbNA : DB := ⟨[], [vetNA], [], [], [], [], [], []⟩

/-- Counterexample to C3 as stated: through the clinicRoutes pipeline with
the second createClinic version a Normal Access veterinarian obtains 201 and
a Clinic document is created with them as primary vet — no access-level gate
exists on that path. -/
theorem createClinic_vB_skips_access_gate :
    ((createClinicRoute_vB dbNA (some ⟨some 1, some "vet"⟩) 5
        ⟨some "C", some "A", some "P"⟩ none).hstatus = 201 ∧
      (createClinicRoute_vB dbNA (some ⟨some 1, some "vet"⟩) 5
        ⟨some "C", some "A", some "P"⟩ none).db.clinics
        = [⟨5, "C", "A", "P", some 1⟩]) := by
  constructor <;> rfl

/-- C3 amended: in the first createClinic version every request whose
principal is not an authenticated veterinarian whose stored record has
accessLevel Primary — in particular any Normal Access veterinarian — is
answered with 403 and the state, hence the Clinic collection, is unchanged;
the second createClinic version performs no access-level check and creates
the clinic for any authenticated principal the vet-role route gate lets
through. -/
theorem createClinic_requires_primary
    (db : DB) (u : Option Principal) (nid : Nat) (b : ClinicBody)
    (loc : Option GeoPoint)
    (hnp : ∀ p, u = some p → p.role = "vet" →
        ∀ v, findVet db p.uid = some v → v.accessLevel ≠ "Primary") :
    createClinic db u nid b loc = ⟨403, db⟩ := by
  unfold createClinic
  rcases u with _ | p
  · rfl
  · dsimp only
    by_cases hr : p.role = "vet"
    · have hrb : (p.role != "vet") = false := by simp [hr]
      rw [hrb]
      simp only [Bool.false_eq_true, if_false]
      rcases hv : findVet db p.uid with _ | v
      · rfl
      · dsimp only
        have hal : (v.accessLevel != "Primary") = true := by
          simp [bne_iff_ne]
          exact hnp p rfl hr v hv
        rw [hal]
        simp
    · have hrb : (p.role != "vet") = true := by simp [bne_iff_ne, hr]
      rw [hrb]
      simp

/-- Witness for C3: a Normal Access vet is refused by the first createClinic
version with 403 and no clinic appears. -/
theorem createClinic_requires_primary_witness :
    createClinic dbNA (some ⟨1, "v@x", "vet", some "Normal Access", none⟩) 5
      ⟨some "C", some "A", some "P"⟩ none = ⟨403, dbNA⟩ :=
  createClinic_requires_primary dbNA
    (some ⟨1, "v@x", "vet", some "Normal Access", none⟩) 5
    ⟨some "C", some "A", some "P"⟩ none
    (by
      intro p hp hr v hv
      cases hp
      have hv2 : some vetNA = some v := by rw [← hv]; rfl
      injection hv2 with h
      rw [← h]
      decide)

/-! ### C4 -/

/-- Counterexample to C4 as stated: requestClinicRegistration, an exposed
owner action, moves a pet whose registrationStatus is Approved back to
Pending (repointing it at the new clinic), so the state machine does allow a
transition out of Approved. -/
theorem requestClinicRegistration_resets_approved :
    (let db : DB := ⟨[], [], [], [⟨6, "C", "A", "P", none⟩],
        [⟨1, 2, some 5, "Approved", false⟩], [], [], []⟩
     (requestClinicRegistration db 1 (some 6)).hstatus = 200 ∧
       (requestClinicRegistration db 1 (some 6)).db.pets
         = [⟨1, 2, some 6, "Pending", false⟩]) := by
  decide

/-- C4 amended: approvePetRegistration and rejectPetRegistration transition
a pet only out of Pending and only when the pet is registered at the clinic
of the requesting veterinarian: when every pet with the requested id is
non-Pending the approve handler leaves the state unchanged and does not
return 200, and — once the requesting veterinarian resolves with a
clinic — such an approve request returns exactly 404 with the state
unchanged; any 200 from approve or reject certifies that the pet was
Pending, that its registeredClinicId equals the resolved clinic of the
requesting veterinarian, and that the resulting state is precisely that pet
moved to Approved (resp. Rejected); however the exposed owner action
requestClinicRegistration resets any non-Pending pet — Approved or Rejected
included — back to Pending at the newly requested clinic. -/
theorem petRegistration_lifecycle (db : DB) (u : Principal) (petId cid : Nat) :
    ((∀ q ∈ db.pets, q.pid = petId → q.registrationStatus ≠ "Pending") →
      (approvePetRegistration_v2 db u petId).db = db ∧
        (approvePetRegistration_v2 db u petId).hstatus ≠ 200) ∧
    (∀ v, db.vets.find? (fun w => w.email == u.pemail) = some v →
      ∀ vc, (match v.currentActiveClinicId with
             | some c => some c
             | none => v.clinicId) = some vc →
      (∀ q ∈ db.pets, q.pid = petId → q.registrationStatus ≠ "Pending") →
      approvePetRegistration_v2 db u petId = ⟨404, db⟩) ∧
    ((approvePetRegistration_v2 db u petId).hstatus = 200 →
      ∃ v, db.vets.find? (fun w => w.email == u.pemail) = some v ∧
      ∃ vc, (match v.currentActiveClinicId with
             | some c => some c
             | none => v.clinicId) = some vc ∧
      ∃ p ∈ db.pets, p.pid = petId ∧ p.registeredClinicId = some vc ∧
        p.registrationStatus = "Pending" ∧
        (approvePetRegistration_v2 db u petId).db
          = setPet db { p with registrationStatus := "Approved" }) ∧
    ((rejectPetRegistration db u petId).hstatus = 200 →
      ∃ v, db.vets.find? (fun w => w.email == u.pemail) = some v ∧
      ∃ vc, (match v.currentActiveClinicId with
             | some c => some c
             | none => v.clinicId) = some vc ∧
      ∃ p ∈ db.pets, p.pid = petId ∧ p.registeredClinicId = some vc ∧
        p.registrationStatus = "Pending" ∧
        (rejectPetRegistration db u petId).db
          = setPet db { p with registrationStatus := "Rejected" }) ∧
    (∀ p, findPet db petId = some p → p.registrationStatus ≠ "Pending" →
      (findClinic db cid).isSome →
      requestClinicRegistration db petId (some cid)
        = ⟨200, setPet db { p with registrationStatus := "Pending",
                                   registeredClinicId := some cid }⟩) := by
  refine ⟨?_, ?_, ?_, ?_, ?_⟩
  · intro hall
    unfold approvePetRegistration_v2
    rcases hv : db.vets.find? (fun v => v.email == u.pemail) with _ | v <;> rw [hv]
    · exact ⟨rfl, by dsimp only; decide⟩
    · dsimp only
      rcases hm : (match v.currentActiveClinicId with
                   | some c => some c
                   | none => v.clinicId) with _ | vc <;> rw [hm]
      · exact ⟨rfl, by dsimp only; decide⟩
      · dsimp only
        rcases hf : db.pets.find? (fun p =>
            p.pid == petId && p.registeredClinicId == some vc
              && p.registrationStatus == "Pending") with _ | p <;> rw [hf]
        · exact ⟨rfl, by dsimp only; decide⟩
        · exfalso
          have hmem := List.mem_of_find?_eq_some hf
          have hpred := List.find?_some hf
          simp only [Bool.and_eq_true, beq_iff_eq] at hpred
          exact hall p hmem hpred.1.1 hpred.2
  · intro v hv vc hm hall
    unfold approvePetRegistration_v2
    rw [hv]
    dsimp only
    rw [hm]
    dsimp only
    rcases hf : db.pets.find? (fun p =>
        p.pid == petId && p.registeredClinicId == some vc
          && p.registrationStatus == "Pending") with _ | p
    · rw [hf]
    · exfalso
      have hmem := List.mem_of_find?_eq_some hf
      have hpred := List.find?_some hf
      simp only [Bool.and_eq_true, beq_iff_eq] at hpred
      exact hall p hmem hpred.1.1 hpred.2
  · intro h200
    unfold approvePetRegistration_v2 at h200
    rcases hv : db.vets.find? (fun v => v.email == u.pemail) with _ | v <;>
      rw [hv] at h200
    · simp at h200
    · dsimp only at h200
      rcases hm : (match v.currentActiveClinicId with
                   | some c => some c
                   | none => v.clinicId) with _ | vc <;> rw [hm] at h200
      · simp at h200
      · dsimp only at h200
        rcases hf : db.pets.find? (fun p =>
            p.pid == petId && p.registeredClinicId == some vc
              && p.registrationStatus == "Pending") with _ | p <;> rw [hf] at h200
        · simp at h200
        · have hmem := List.mem_of_find?_eq_some hf
          have hpred := List.find?_some hf
          simp only [Bool.and_eq_true, beq_iff_eq] at hpred
          have heval : approvePetRegistration_v2 db u petId
              = ⟨200, setPet db { p with registrationStatus := "Approved" }⟩ := by
            unfold approvePetRegistration_v2
            rw [hv]
            dsimp only
            rw [hm]
            dsimp only
            rw [hf]
          exact ⟨v, hv, vc, hm, p, hmem, hpred.1.1, hpred.1.2, hpred.2,
            by rw [heval]⟩
  · intro h200
    unfold rejectPetRegistration at h200
    rcases hv : db.vets.find? (fun v => v.email == u.pemail) with _ | v <;>
      rw [hv] at h200
    · simp at h200
    · dsimp only at h200
      rcases hm : (match v.currentActiveClinicId with
                   | some c => some c
                   | none => v.clinicId) with _ | vc <;> rw [hm] at h200
      · simp at h200
      · dsimp only at h200
        rcases hf : db.pets.find? (fun p =>
            p.pid == petId && p.registeredClinicId == some vc
              && p.registrationStatus == "Pending") with _ | p <;> rw [hf] at h200
        · simp at h200
        · have hmem := List.mem_of_find?_eq_some hf
          have hpred := List.find?_some hf
          simp only [Bool.and_eq_true, beq_iff_eq] at hpred
          have heval : rejectPetRegistration db u petId
              = ⟨200, setPet db { p with registrationStatus := "Rejected" }⟩ := by
            unfold rejectPetRegistration
            rw [hv]
            dsimp only
            rw [hm]
            dsimp only
            rw [hf]
          exact ⟨v, hv, vc, hm, p, hmem, hpred.1.1, hpred.1.2, hpred.2,
            by rw [heval]⟩
  · intro p hp hnp hcl
    obtain ⟨c, hc⟩ := Option.isSome_iff_exists.mp hcl
    unfold requestClinicRegistration
    dsimp only
    rw [hp]
    dsimp only
    rw [hc]
    dsimp only
    have : (p.registrationStatus != "Pending") = true := by
      simp [bne_iff_ne, hnp]
    rw [this]
    simp

/-- Witness for C4: an all-Approved database leaves approve at exactly 404
with the state untouched, a 200 approve (resp. reject) of a Pending pet at
the vet clinic certifies the Pending state and the clinic match and yields
exactly the Approved (resp. Rejected) transition, and an Approved pet is
reset to Pending by the owner re-registration action. -/
theorem petRegistration_lifecycle_witness :
    ((approvePetRegistration_v2 dbApproved uPrim 1).db = dbApproved ∧
      (approvePetRegistration_v2 dbApproved uPrim 1).hstatus ≠ 200) ∧
    approvePetRegistration_v2 dbApproved uPrim 1 = ⟨404, dbApproved⟩ ∧
    (∃ v, dbPending.vets.find? (fun w => w.email == uPrim.pemail) = some v ∧
      ∃ vc, (match v.currentActiveClinicId with
             | some c => some c
             | none => v.clinicId) = some vc ∧
      ∃ p ∈ dbPending.pets, p.pid = 1 ∧ p.registeredClinicId = some vc ∧
        p.registrationStatus = "Pending" ∧
        (approvePetRegistration_v2 dbPending uPrim 1).db
          = setPet dbPending { p with registrationStatus := "Approved" }) ∧
    (∃ v, dbPending.vets.find? (fun w => w.email == uPrim.pemail) = some v ∧
      ∃ vc, (match v.currentActiveClinicId with
             | some c => some c
             | none => v.clinicId) = some vc ∧
      ∃ p ∈ dbPending.pets, p.pid = 1 ∧ p.registeredClinicId = some vc ∧
        p.registrationStatus = "Pending" ∧
        (rejectPetRegistration dbPending uPrim 1).db
          = setPet dbPending { p with registrationStatus := "Rejected" }) ∧
    requestClinicRegistration dbApproved 1 (some 6)
      = ⟨200, setPet dbApproved ⟨1, 2, some 6, "Pending", false⟩⟩ :=
  ⟨(petRegistration_lifecycle dbApproved uPrim 1 6).1 (by decide),
   (petRegistration_lifecycle dbApproved uPrim 1 6).2.1 vetPrim (by decide) 5
     (by decide) (by decide),
   (petRegistration_lifecycle dbPending uPrim 1 6).2.2.1 (by decide),
   (petRegistration_lifecycle dbPending uPrim 1 6).2.2.2.1 (by decide),
   (petRegistration_lifecycle dbApproved uPrim 1 6).2.2.2.2
     ⟨1, 2, some 5, "Approved", false⟩ (by decide) (by decide) (by decide)⟩

end PawPal
